import Mathlib

/-!
# Verification of the MedFeeBot change-detection core

A shallow embedding of the change-detection / state-reconciliation core of
the MedFeeBot repository (`src/storage.py`, `src/main.py`, `src/fetcher.py`,
`src/parser.py`), with theorems settling the specification's claims about it.

Modelling conventions:
* A Python `dict` (insertion ordered, assignment updates in place or appends)
  is an association list `List (String × β)` with `dictGet` / `dictSet`.
* A Python `set` of URL strings is a `Finset String`.
* Google-Cloud-Storage / local-file I/O is made explicit: a load is a value
  of type `GcsLoad α` (the four outcomes the code distinguishes), and the
  "persisted" state after a call is the dictionary the code hands to the
  save function.
* A Python function that may raise is a Lean function into `Except`.
-/

namespace MedFeeBot

/-- Python dictionary `m.get(k)` / `m[k]` lookup on an association list. -/
def dictGet {β : Type} : List (String × β) → String → Option β
  | [], _ => none
  | (k', v) :: rest, k => if k' = k then some v else dictGet rest k

/-- Python dictionary assignment `m[k] = v`: replaces the value in place if
the key is present, otherwise appends the new binding at the end
(insertion order, as a Python `dict` does). -/
def dictSet {β : Type} : List (String × β) → String → β → List (String × β)
  | [], k, v => [(k, v)]
  | (k', v') :: rest, k, v =>
      if k' = k then (k, v) :: rest else (k', v') :: dictSet rest k v

theorem dictGet_dictSet_self {β : Type} (m : List (String × β)) (k : String) (v : β) :
    dictGet (dictSet m k v) k = some v := by
  induction m with
  | nil => simp [dictSet, dictGet]
  | cons hd tl ih =>
      obtain ⟨k', v'⟩ := hd
      by_cases h : k' = k
      · simp [dictSet, dictGet, h]
      · simp [dictSet, dictGet, h, ih]

theorem dictGet_dictSet_ne {β : Type} (m : List (String × β)) (k k' : String) (v : β)
    (h : k ≠ k') : dictGet (dictSet m k v) k' = dictGet m k' := by
  induction m with
  | nil => simp [dictSet, dictGet, h]
  | cons hd tl ih =>
      obtain ⟨k₀, v₀⟩ := hd
      by_cases h0 : k₀ = k
      · subst h0
        simp [dictSet, dictGet, h]
      · simp [dictSet, dictGet, h0, ih]

/-- The known-PDF-URLs state: target URL → list of known PDF URLs
(`Dict[str, List[str]]` in `storage.py`). -/
abbrev KnownMap := List (String × List String)

/-- The latest-meeting-id state: target URL → latest meeting id
(`Dict[str, str]` in `storage.py`). -/
abbrev IdMap := List (String × String)

/-- Python `sorted(list(s))` on a set of strings. -/
def sortedList (s : Finset String) : List String :=
  s.sort (· ≤ ·)

theorem toFinset_sortedList (s : Finset String) : (sortedList s).toFinset = s := by
  simp [sortedList]

/-- `set(all_known_urls_dict.get(target_url, []))` — the known URLs for one
target, as a set (storage.py line 217). -/
def knownFor (m : KnownMap) (target_url : String) : Finset String :=
  ((dictGet m target_url).getD []).toFinset

/-- Result of one `find_new_pdf_urls` call: the returned set of new URLs, the
known-URLs dictionary as it stands after the call (what gets persisted when
an update occurred), and whether `save_known_urls` was invoked
(`target_needs_update` in the source). -/
structure ReconcileResult where
  newUrls : Finset String
  state : KnownMap
  saved : Bool
  deriving DecidableEq

/-- `storage.find_new_pdf_urls` (storage.py lines 195–244), after a successful
load of the known-URLs dictionary `m`.  Mirrors the source:

* `known_urls_for_target = set(all_known_urls_dict.get(target_url, []))`
* `new_urls_for_target = current_pdf_urls - known_urls_for_target`
* first branch (line 223): `target_url not in all_known_urls_dict and
  current_pdf_urls` — store `sorted(list(current_pdf_urls))`, clear the
  result set, mark for saving;
* second branch (line 228): `new_urls_for_target` non-empty — store
  `sorted(list(known ∪ new))`, mark for saving;
* else: no mutation, no save.  -/
def find_new_pdf_urls (target_url : String) (current_pdf_urls : Finset String)
    (m : KnownMap) : ReconcileResult :=
  let known_urls_for_target := knownFor m target_url
  let new_urls_for_target := current_pdf_urls \ known_urls_for_target
  if dictGet m target_url = none ∧ current_pdf_urls ≠ ∅ then
    { newUrls := ∅
      state := dictSet m target_url (sortedList current_pdf_urls)
      saved := true }
  else if new_urls_for_target ≠ ∅ then
    { newUrls := new_urls_for_target
      state := dictSet m target_url
        (sortedList (known_urls_for_target ∪ new_urls_for_target))
      saved := true }
  else
    { newUrls := new_urls_for_target
      state := m
      saved := false }

/-- Outcome of one attempt to download and decode a state object from the
storage backend, as distinguished by the `try`/`except` arms of
`load_known_urls` and `load_latest_meeting_ids` (storage.py):
`notFound` = the object/file does not exist (`NotFound`/`FileNotFoundError`);
`badData` = present but undecodable or mis-shaped JSON;
`good d` = decoded to a well-formed dictionary `d`;
`connFail` = any other exception, in particular a connectivity failure of
the backend. -/
inductive GcsLoad (α : Type) where
  | notFound : GcsLoad α
  | badData : GcsLoad α
  | good : α → GcsLoad α
  | connFail : GcsLoad α
  deriving DecidableEq

/-- `storage.load_known_urls` (storage.py lines 19–78, GCS path): missing
object and malformed content yield the empty dictionary; any other
exception is re-raised (line 78, "Treat other GCS errors as fatal for
loading"). -/
def load_known_urls : GcsLoad KnownMap → Except Unit KnownMap
  | .notFound => .ok []
  | .badData => .ok []
  | .good d => .ok d
  | .connFail => .error ()

/-- `storage.load_latest_meeting_ids` (storage.py lines 249–336, GCS path):
missing object and malformed content yield the empty dictionary, and —
unlike `load_known_urls` — so does every other exception: the generic
handler at lines 297–301 logs and falls through to `return latest_ids_dict`
(the `raise` is commented out), so nothing propagates. -/
def load_latest_meeting_ids : GcsLoad IdMap → IdMap
  | .notFound => []
  | .badData => []
  | .good d => d
  | .connFail => []

/-- `storage.find_new_pdf_urls` including its state load (storage.py lines
208–244): the call to `load_known_urls` sits in a `try` whose handler
(lines 213–215) catches every exception, logs, and returns the empty set —
so the function itself never raises.  The result is the returned set of new
URLs together with whether a save was attempted. -/
def find_new_pdf_urls_full (target_url : String) (current_pdf_urls : Finset String)
    (load : GcsLoad KnownMap) : Except Unit (Finset String × Bool) :=
  match load_known_urls load with
  | .error _ => .ok (∅, false)
  | .ok m =>
      let r := find_new_pdf_urls target_url current_pdf_urls m
      .ok (r.newUrls, r.saved)

/-- The meeting branch of `main.process_url` (main.py lines 106–119), after a
meeting id `observed_id` has been parsed: load the latest-ids dictionary,
compare with `all_latest_ids.get(url)`, and on a difference notify, update
`all_latest_ids[url]` and save.  Returns (notification sent, dictionary as
persisted after the call). -/
def process_meeting_check (url observed_id : String) (all_latest_ids : IdMap) :
    Bool × IdMap :=
  let previous_meeting_id := dictGet all_latest_ids url
  if previous_meeting_id ≠ some observed_id then
    (true, dictSet all_latest_ids url observed_id)
  else
    (false, all_latest_ids)

/-- Outcome of `process_url` for one URL as seen by `run_check`: either a
Boolean success value, or an exception escaping `process_url`. -/
abbrev ProcessOutcome := Except Unit Bool

/-- The body of the `for` loop of `main.run_check` (main.py lines 148–162):
an exception from `process_url` is caught, alerted, and turns
`overall_success` off; a `False` return also turns it off; either way the
loop continues with the next URL. -/
def processLoopSuccess (o : ProcessOutcome) : Bool :=
  match o with
  | .ok b => b
  | .error _ => false

/-- The loop of `main.run_check` with the running `overall_success` flag
made explicit; returns the list of URLs actually processed (in order)
together with the final flag. -/
def run_check_aux (process : String → ProcessOutcome) (overall_success : Bool) :
    List String → List String × Bool
  | [] => ([], overall_success)
  | url :: rest =>
      let success := processLoopSuccess (process url)
      let r := run_check_aux process (overall_success && success) rest
      (url :: r.1, r.2)

/-- `main.run_check` (main.py lines 134–169): iterate over all of
`cfg.target_urls`, never stopping early, and return the conjunction of the
per-URL outcomes. -/
def run_check (target_urls : List String) (process : String → ProcessOutcome) :
    List String × Bool :=
  run_check_aux process true target_urls

/-- `fetcher.fetch_html`'s retry loop (fetcher.py lines 33–68), with the
network made explicit: `attempt k` is the outcome of the `k`-th HTTP request
(`some html` when `requests.get` + `raise_for_status` succeed, `none` when
either `except` arm runs).  `attempts` is the loop counter, `fuel` a bound
on the remaining iterations (the loop runs while `attempts < retries`, and
`attempts` grows by one per iteration, so `retries` initial fuel suffices).
Returns the result together with the number of requests actually issued. -/
def fetch_html_aux (attempt : Nat → Option String) (retries : Nat) :
    Nat → Nat → Option String × Nat
  | attempts, 0 => (none, attempts)
  | attempts, fuel + 1 =>
      if attempts < retries then
        match attempt (attempts + 1) with
        | some html => (some html, attempts + 1)
        | none =>
            if attempts + 1 < retries then
              fetch_html_aux attempt retries (attempts + 1) fuel
            else
              (none, attempts + 1)
      else
        (none, attempts)

/-- `fetcher.fetch_html` (fetcher.py lines 16–68): run the retry loop from
`attempts = 0`. -/
def fetch_html (attempt : Nat → Option String) (retries : Nat) :
    Option String × Nat :=
  fetch_html_aux attempt retries 0 retries

/-! ## The parsers (`src/parser.py`)

BeautifulSoup itself is outside the repository; each extractor is embedded
over the part of the soup it actually inspects (for `extract_pdf_links` the
`<a href=…>` tags in document order, etc.), and the `try`/`except` that
wraps each extractor's whole body is the `Except` in the input: `.error`
stands for an exception anywhere while parsing or walking the soup. -/

/-- An exception raised while parsing/walking the HTML. -/
inductive ParseErr where
  | failed : ParseErr
  deriving DecidableEq

/-- A BeautifulSoup `href` attribute value: normally a string, occasionally
a list of strings. -/
abbrev HrefAttr := Sum String (List String)

/-- parser.py lines 37–44: a string href is stripped; a list href is
replaced by its stripped first element (or `""` when empty). -/
def normalizeHref : HrefAttr → String
  | .inl s => s.trim
  | .inr [] => ""
  | .inr (s :: _) => s.trim

/-- `l` can be matched by the regex fragment `.*` (Python `.` does not match
a newline). -/
def noNewline (l : List Char) : Bool :=
  l.all (fun c => c != '\n')

/-- Some suffix of `l` is `".pdf?"` followed by newline-free text running to
the end of `l` — the `\.pdf\?.*` alternative of the pattern, anchored at the
end of `l`. -/
def pdfQueryAt : List Char → Bool
  | [] => false
  | c :: rest =>
      (List.isPrefixOf ['.', 'p', 'd', 'f', '?'] (c :: rest)
         && noNewline ((c :: rest).drop 5))
      || pdfQueryAt rest

/-- `l` matches `\.pdf(\?.*)?` anchored at the end of `l`. -/
def pdfEndMatch (l : List Char) : Bool :=
  (String.mk l).endsWith ".pdf" || pdfQueryAt l

/-- `PDF_LINK_PATTERN.search(s)` for
`PDF_LINK_PATTERN = re.compile(r"\.pdf(\?.*)?$", re.IGNORECASE)`
(parser.py line 13).  `re.IGNORECASE` is modelled by lowering the input
against the all-lowercase literal (exact for ASCII).  Python's `$` (without
`re.MULTILINE`) matches at the end of the string and also just before a
newline that ends the string, hence the second disjunct. -/
def PDF_LINK_PATTERN_search (s : String) : Bool :=
  let l := s.toLower.toList
  pdfEndMatch l ||
    (match l.getLast? with
     | some c => (c == '\n') && pdfEndMatch l.dropLast
     | none => false)

/-- The tail of a URI scheme: scheme characters until `"://"`. -/
def schemeRest : List Char → Bool
  | [] => false
  | ':' :: '/' :: '/' :: _ => true
  | c :: rest =>
      (c.isAlpha || c.isDigit || c == '+' || c == '-' || c == '.') && schemeRest rest

/-- The string starts with `scheme://` for a syntactically valid scheme. -/
def isAbsoluteUrl (s : String) : Bool :=
  match s.toList with
  | [] => false
  | c :: rest => c.isAlpha && schemeRest rest

/-- Modelled from the spec: `urllib.parse.urljoin` of the Python standard
library is not part of this repository.  The spec relies on it resolving a
relative href against the base URL and passing an absolute href through
unchanged; we model exactly that, resolving a relative href against the
base with its last path segment removed. -/
def urljoin (base_url href : String) : String :=
  if isAbsoluteUrl href then href
  else String.mk ((base_url.toList.reverse.dropWhile (fun c => c != '/')).reverse) ++ href

/-- An `<a>` tag with an `href` attribute, as produced by
`soup.find_all('a', href=True)`. -/
structure ATag where
  href : HrefAttr

/-- The loop body of `extract_pdf_links` (parser.py lines 34–53): normalize
the href, skip it when empty or not matched by `PDF_LINK_PATTERN`, else
resolve it against the base URL and add it to the set (the source's
membership test before `add` is the set semantics of `insert`). -/
def pdfFoldStep (base_url : String) (pdf_links : Finset String) (a : ATag) :
    Finset String :=
  let href := normalizeHref a.href
  if href ≠ "" ∧ PDF_LINK_PATTERN_search href = true then
    insert (urljoin base_url href) pdf_links
  else
    pdf_links

/-- `parser.extract_pdf_links` (parser.py lines 15–60): fold the loop body
over the `<a href>` tags of the soup starting from the empty set; any
exception yields the empty set (lines 58–60). -/
def extract_pdf_links (doc : Except ParseErr (List ATag)) (base_url : String) :
    Finset String :=
  match doc with
  | .error _ => ∅
  | .ok atags => atags.foldl (pdfFoldStep base_url) ∅

/-- One character position matches `\d{4}\.\d{2}\.\d{2}` (Python `\d`
restricted to ASCII digits). -/
def dateAt : List Char → Option String
  | a1 :: a2 :: a3 :: a4 :: c1 :: b1 :: b2 :: c2 :: d1 :: d2 :: _ =>
      if a1.isDigit && a2.isDigit && a3.isDigit && a4.isDigit && c1 == '.'
          && b1.isDigit && b2.isDigit && c2 == '.' && d1.isDigit && d2.isDigit then
        some (String.mk [a1, a2, a3, a4, c1, b1, b2, c2, d1, d2])
      else
        none
  | _ => none

/-- `re.search(r'(\d{4}\.\d{2}\.\d{2})', s)` (parser.py line 95): the
leftmost match, if any. -/
def dateSearch : List Char → Option String
  | [] => none
  | c :: rest =>
      match dateAt (c :: rest) with
      | some d => some d
      | none => dateSearch rest

/-- One `div.col-12.isotope-item` of the hospital page, reduced to what the
extractor inspects: the text of its `div.fs13` (if present), and its
`p.fs_p` container (if present) with the `(href, text)` of its first
`a[href]` (if present). -/
structure HospItem where
  dateDiv : Option String
  linkContainer : Option (Option (HrefAttr × String))

/-- The per-item body of `extract_hospital_document_info` (parser.py lines
84–143): extract the date by regex search over the `div.fs13` text, take
the `a[href]` of `p.fs_p` whose href is a string matching
`PDF_LINK_PATTERN` (a list-valued href is only warned about), and keep the
item only when date, title and URL are all present and non-empty
(Python truthiness at line 128). -/
def hospDocOf (base_url : String) (it : HospItem) :
    Option (String × String × String) :=
  let date_str : Option String :=
    match it.dateDiv with
    | some raw => dateSearch raw.toList
    | none => none
  let link : Option (String × String) :=
    match it.linkContainer with
    | some (some (Sum.inl hv, link_text)) =>
        let href := hv.trim
        if PDF_LINK_PATTERN_search href then
          some (link_text, urljoin base_url href)
        else
          none
    | _ => none
  match date_str, link with
  | some d, some (t, u) =>
      if d ≠ "" ∧ t ≠ "" ∧ u ≠ "" then some (d, t, u) else none
  | _, _ => none

/-- `parser.extract_hospital_document_info` (parser.py lines 63–151):
`(date, title, url)` triples of the qualifying items, in page order; any
exception yields the empty list (lines 149–151). -/
def extract_hospital_document_info (doc : Except ParseErr (List HospItem))
    (base_url : String) : List (String × String × String) :=
  match doc with
  | .error _ => []
  | .ok items =>
      items.foldl
        (fun documents it =>
          match hospDocOf base_url it with
          | some d => documents ++ [d]
          | none => documents) []

/-- One `<td>` of the first row of the chuikyo meeting table, reduced to
what the extractor inspects: its stripped text, the stripped texts of its
`ol.m-listMarker > li` items, and the `(href, text)` of its first
`a.m-link[href]` (if any). -/
structure Td where
  text : String
  topicItems : List String
  mLink : Option (HrefAttr × String)

/-- The extracted latest-meeting record (the dictionary built by
`extract_latest_chuikyo_meeting`). -/
structure MeetingInfo where
  id : String
  date : String
  topics : List String
  minutes_url : Option String
  minutes_text : Option String
  materials_url : Option String
  materials_text : Option String
  deriving DecidableEq

/-- parser.py lines 234–253: an optional-link cell yields `(url, text)` only
when the link is present and its href is a string; the href is stripped and
resolved against the base URL. -/
def optionalLink (base_url : String) (ml : Option (HrefAttr × String)) :
    Option String × Option String :=
  match ml with
  | some (Sum.inl hv, link_text) => (some (urljoin base_url hv.trim), some link_text)
  | _ => (none, none)

/-- `parser.extract_latest_chuikyo_meeting` (parser.py lines 154–265).  The
input is `.ok none` when the `table.m-tableFlex` or its first `<tr>` is
missing, `.ok (some tds)` for the `<td>` children of the first row, and
`.error` for an exception anywhere (lines 263–265).  Mirrors the source:
fewer than 3 tds → `None`; empty id → `None`; topics from the `ol` items,
else the cell text, and empty topics → `None`; optional minutes/materials
links from tds 3 and 4; final guard re-checking id, date and topics
(line 256). -/
def extract_latest_chuikyo_meeting (doc : Except ParseErr (Option (List Td)))
    (base_url : String) : Option MeetingInfo :=
  match doc with
  | .error _ => none
  | .ok none => none
  | .ok (some tds) =>
      match tds with
      | t0 :: t1 :: t2 :: rest =>
          let mid := t0.text
          if mid = "" then none
          else
            let mdate := t1.text
            let topics :=
              if t2.topicItems ≠ [] then t2.topicItems
              else if t2.text ≠ "" then [t2.text]
              else []
            if topics = [] then none
            else
              let minutes := optionalLink base_url ((rest[0]?).bind Td.mLink)
              let materials := optionalLink base_url ((rest[1]?).bind Td.mLink)
              let info : MeetingInfo :=
                { id := mid
                  date := mdate
                  topics := topics
                  minutes_url := minutes.1
                  minutes_text := minutes.2
                  materials_url := materials.1
                  materials_text := materials.2 }
              if info.id ≠ "" ∧ info.date ≠ "" ∧ info.topics ≠ [] then some info
              else none
      | _ => none

/-! ## Theorems -/

/-- C1: when the source key is absent from the persisted known-URLs map and
the observed set is non-empty, `find_new_pdf_urls` persists the source key
mapped to exactly the observed set (stored as its sorted list), triggers a
save, and returns the empty set of new URLs — first-observation
suppression, nothing is notified. -/
theorem find_new_pdf_urls_first_observation (target_url : String)
    (current : Finset String) (m : KnownMap)
    (habs : dictGet m target_url = none) (hne : current ≠ ∅) :
    (find_new_pdf_urls target_url current m).newUrls = ∅ ∧
    dictGet (find_new_pdf_urls target_url current m).state target_url
      = some (sortedList current) ∧
    knownFor (find_new_pdf_urls target_url current m).state target_url = current ∧
    (find_new_pdf_urls target_url current m).saved = true := by
  simp [find_new_pdf_urls, knownFor, habs, hne, dictGet_dictSet_self,
    toFinset_sortedList]

theorem find_new_pdf_urls_first_observation_witness :
    (find_new_pdf_urls "s" {"A", "B"} []).newUrls = ∅ ∧
    dictGet (find_new_pdf_urls "s" {"A", "B"} []).state "s"
      = some (sortedList {"A", "B"}) ∧
    knownFor (find_new_pdf_urls "s" {"A", "B"} []).state "s" = {"A", "B"} ∧
    (find_new_pdf_urls "s" {"A", "B"} []).saved = true :=
  find_new_pdf_urls_first_observation "s" {"A", "B"} [] rfl (by decide)

/-- C2: when the source key is present with known set `K` (stored as the
list `k`) and the observed set `current` has `current − K` non-empty,
`find_new_pdf_urls` returns exactly `current − K` and persists the source
key mapped to `K ∪ (current − K)`. -/
theorem find_new_pdf_urls_incremental (target_url : String)
    (current : Finset String) (m : KnownMap) (k : List String)
    (hk : dictGet m target_url = some k)
    (hnew : current \ k.toFinset ≠ ∅) :
    (find_new_pdf_urls target_url current m).newUrls = current \ k.toFinset ∧
    knownFor (find_new_pdf_urls target_url current m).state target_url
      = k.toFinset ∪ (current \ k.toFinset) ∧
    (find_new_pdf_urls target_url current m).saved = true := by
  simp [find_new_pdf_urls, knownFor, hk, hnew, dictGet_dictSet_self,
    toFinset_sortedList]

theorem find_new_pdf_urls_incremental_witness :
    (find_new_pdf_urls "s" {"B", "C", "D"} [("s", ["A", "B"])]).newUrls
      = {"B", "C", "D"} \ (["A", "B"] : List String).toFinset ∧
    knownFor (find_new_pdf_urls "s" {"B", "C", "D"} [("s", ["A", "B"])]).state "s"
      = (["A", "B"] : List String).toFinset
          ∪ ({"B", "C", "D"} \ (["A", "B"] : List String).toFinset) ∧
    (find_new_pdf_urls "s" {"B", "C", "D"} [("s", ["A", "B"])]).saved = true :=
  find_new_pdf_urls_incremental "s" {"B", "C", "D"} [("s", ["A", "B"])]
    ["A", "B"] rfl (by decide)

/-- C5: when the source key is present and the observed set is a subset of
the known set, `find_new_pdf_urls` returns the empty set, leaves the state
untouched and attempts no save; a second call on the resulting state is the
very same no-op. -/
theorem find_new_pdf_urls_subset_noop (target_url : String)
    (current : Finset String) (m : KnownMap) (k : List String)
    (hk : dictGet m target_url = some k) (hsub : current ⊆ k.toFinset) :
    (find_new_pdf_urls target_url current m).newUrls = ∅ ∧
    (find_new_pdf_urls target_url current m).state = m ∧
    (find_new_pdf_urls target_url current m).saved = false ∧
    find_new_pdf_urls target_url current
        ((find_new_pdf_urls target_url current m).state)
      = find_new_pdf_urls target_url current m := by
  have hnew : current \ k.toFinset = ∅ := Finset.sdiff_eq_empty_iff_subset.mpr hsub
  have h : find_new_pdf_urls target_url current m
      = ⟨∅, m, false⟩ := by
    simp [find_new_pdf_urls, knownFor, hk, hnew]
  refine ⟨by rw [h], by rw [h], by rw [h], ?_⟩
  rw [h]
  exact h

theorem find_new_pdf_urls_subset_noop_witness :
    (find_new_pdf_urls "s" {"A", "B"} [("s", ["A", "B", "C"])]).newUrls = ∅ ∧
    (find_new_pdf_urls "s" {"A", "B"} [("s", ["A", "B", "C"])]).state
      = [("s", ["A", "B", "C"])] ∧
    (find_new_pdf_urls "s" {"A", "B"} [("s", ["A", "B", "C"])]).saved = false ∧
    find_new_pdf_urls "s" {"A", "B"}
        ((find_new_pdf_urls "s" {"A", "B"} [("s", ["A", "B", "C"])]).state)
      = find_new_pdf_urls "s" {"A", "B"} [("s", ["A", "B", "C"])] :=
  find_new_pdf_urls_subset_noop "s" {"A", "B"} [("s", ["A", "B", "C"])]
    ["A", "B", "C"] rfl (by decide)

/-- C9: the per-source known-URLs set grows monotonically — for every call
of `find_new_pdf_urls` and every source key, the known set for that key
after the call contains the known set before it. -/
theorem find_new_pdf_urls_monotone (target_url : String)
    (current : Finset String) (m : KnownMap) (key : String) :
    knownFor m key ⊆ knownFor (find_new_pdf_urls target_url current m).state key := by
  by_cases hkey : target_url = key
  · subst hkey
    by_cases habs : dictGet m target_url = none
    · by_cases hc : current = ∅
      · have hnew : current \ knownFor m target_url = ∅ := by
          simp [knownFor, habs, hc]
        simp [find_new_pdf_urls, knownFor, habs, hc, hnew]
      · simp [find_new_pdf_urls, knownFor, habs, hc, dictGet_dictSet_self]
    · obtain ⟨k, hk⟩ := Option.ne_none_iff_exists'.mp habs
      by_cases h2 : current \ k.toFinset = ∅
      · simp [find_new_pdf_urls, knownFor, hk, h2]
      · simp [find_new_pdf_urls, knownFor, hk, h2, dictGet_dictSet_self,
          toFinset_sortedList]
  · have huntouched :
        dictGet (find_new_pdf_urls target_url current m).state key = dictGet m key := by
      by_cases habs : dictGet m target_url = none
      · by_cases hc : current = ∅
        · have hnew : current \ knownFor m target_url = ∅ := by
            simp [knownFor, habs, hc]
          simp [find_new_pdf_urls, knownFor, habs, hc, hnew]
        · simp [find_new_pdf_urls, habs, hc, dictGet_dictSet_ne _ _ _ _ hkey]
      · obtain ⟨k, hk⟩ := Option.ne_none_iff_exists'.mp habs
        by_cases h2 : current \ k.toFinset = ∅
        · simp [find_new_pdf_urls, knownFor, hk, h2]
        · simp [find_new_pdf_urls, knownFor, hk, h2, dictGet_dictSet_ne _ _ _ _ hkey]
    rw [knownFor, knownFor, huntouched]

/-- C3: the meeting branch of `process_url` classifies the observed id as
new exactly when it differs from the persisted previous id for the source
(an absent previous id in particular makes any observed id new, and the
notification is sent exactly then), overwrites the persisted latest-id to
the observed id exactly when it is new, and otherwise leaves the state
unchanged. -/
theorem process_meeting_check_spec (url observed_id : String) (m : IdMap) :
    ((process_meeting_check url observed_id m).1 = true
        ↔ dictGet m url ≠ some observed_id) ∧
    (dictGet m url = none → (process_meeting_check url observed_id m).1 = true) ∧
    ((process_meeting_check url observed_id m).1 = true →
      dictGet (process_meeting_check url observed_id m).2 url = some observed_id) ∧
    ((process_meeting_check url observed_id m).1 = false →
      (process_meeting_check url observed_id m).2 = m) := by
  by_cases h : dictGet m url = some observed_id
  · simp [process_meeting_check, h]
  · simp [process_meeting_check, h, dictGet_dictSet_self]

theorem process_meeting_check_spec_witness :
    ((process_meeting_check "u" "607" [("u", "606")]).1 = true
        ↔ dictGet [("u", "606")] "u" ≠ some "607") ∧
    (dictGet [("u", "606")] "u" = none →
      (process_meeting_check "u" "607" [("u", "606")]).1 = true) ∧
    ((process_meeting_check "u" "607" [("u", "606")]).1 = true →
      dictGet (process_meeting_check "u" "607" [("u", "606")]).2 "u" = some "607") ∧
    ((process_meeting_check "u" "607" [("u", "606")]).1 = false →
      (process_meeting_check "u" "607" [("u", "606")]).2 = [("u", "606")]) :=
  process_meeting_check_spec "u" "607" [("u", "606")]

/-- C4: evaluation of the code at the failing input.  On a connectivity
failure of the storage backend, `find_new_pdf_urls` does not let anything
propagate — it catches the error re-raised by `load_known_urls` and returns
the empty set with no save (storage.py lines 213–215), so the dispatcher
never sees a failure — and `load_latest_meeting_ids` silently returns the
empty dictionary, exactly the empty-state result (storage.py lines
297–301, with the `raise` commented out).  The repository's own tests
`test_find_new_pdf_urls_load_error` and
`test_load_latest_meeting_ids_gcs_download_error` assert with
`pytest.raises` that the exception propagates out of both functions, so
the code contradicts its own test suite here and the claim states the
intended behavior. -/
theorem load_failure_not_propagated_cex :
    find_new_pdf_urls_full "u" {"a"} GcsLoad.connFail = Except.ok (∅, false) ∧
    load_latest_meeting_ids GcsLoad.connFail = ([] : IdMap) ∧
    find_new_pdf_urls_full "u" {"a"} GcsLoad.connFail ≠ Except.error () :=
  ⟨rfl, rfl, by simp [find_new_pdf_urls_full, load_known_urls]⟩

/-- What the code actually does on a backend connectivity failure: the
error does propagate out of `load_known_urls`, but `find_new_pdf_urls`
catches it and returns the empty set with no save — indistinguishable to
the dispatcher from "no new URLs", so the source is not marked failed —
and `load_latest_meeting_ids` swallows it entirely, returning the empty
dictionary. -/
theorem load_failure_swallowed (target_url : String) (current : Finset String) :
    load_known_urls GcsLoad.connFail = Except.error () ∧
    find_new_pdf_urls_full target_url current GcsLoad.connFail
      = Except.ok (∅, false) ∧
    load_latest_meeting_ids GcsLoad.connFail = [] :=
  ⟨rfl, rfl, rfl⟩

theorem run_check_aux_processes_all (process : String → ProcessOutcome)
    (acc : Bool) (l : List String) : (run_check_aux process acc l).1 = l := by
  induction l generalizing acc with
  | nil => rfl
  | cons u rest ih => simp [run_check_aux, ih]

theorem run_check_aux_flag (process : String → ProcessOutcome) (acc : Bool)
    (l : List String) :
    (run_check_aux process acc l).2
      = (acc && l.all fun u => processLoopSuccess (process u)) := by
  induction l generalizing acc with
  | nil => simp [run_check_aux]
  | cons u rest ih => simp [run_check_aux, ih, Bool.and_assoc]

theorem processLoopSuccess_eq_true_iff (o : ProcessOutcome) :
    processLoopSuccess o = true ↔ o = Except.ok true := by
  cases o with
  | ok b => simp [processLoopSuccess]
  | error e => simp [processLoopSuccess]

/-- C6: `run_check` processes every configured source in order, regardless
of per-source failures or exceptions, and returns overall success `true`
exactly when every configured source was processed successfully. -/
theorem run_check_spec (target_urls : List String)
    (process : String → ProcessOutcome) :
    (run_check target_urls process).1 = target_urls ∧
    ((run_check target_urls process).2 = true
      ↔ ∀ url ∈ target_urls, process url = Except.ok true) := by
  refine ⟨run_check_aux_processes_all process true target_urls, ?_⟩
  rw [run_check, run_check_aux_flag]
  simp [processLoopSuccess_eq_true_iff]

/-- C7: each extractor is a total function, and on a parse failure —
an exception anywhere inside its body, caught by its outermost
`try`/`except` — it returns the empty set, the empty list, or `none`
respectively; no input makes any of them raise. -/
theorem extractors_never_raise (e : ParseErr) (base_url : String) :
    extract_pdf_links (Except.error e) base_url = ∅ ∧
    extract_hospital_document_info (Except.error e) base_url = [] ∧
    extract_latest_chuikyo_meeting (Except.error e) base_url = none :=
  ⟨rfl, rfl, rfl⟩

theorem foldl_pdfFoldStep_mem (base_url u : String) (atags : List ATag)
    (acc : Finset String) :
    u ∈ atags.foldl (pdfFoldStep base_url) acc ↔
      u ∈ acc ∨ ∃ a ∈ atags, normalizeHref a.href ≠ "" ∧
        PDF_LINK_PATTERN_search (normalizeHref a.href) = true ∧
        u = urljoin base_url (normalizeHref a.href) := by
  induction atags generalizing acc with
  | nil => simp
  | cons a l ih =>
      rw [List.foldl_cons, ih]
      by_cases h : normalizeHref a.href ≠ ""
          ∧ PDF_LINK_PATTERN_search (normalizeHref a.href) = true
      · simp only [pdfFoldStep, if_pos h, Finset.mem_insert, List.mem_cons]
        constructor
        · rintro ((rfl | hacc) | ⟨b, hb, hprop⟩)
          · exact Or.inr ⟨a, Or.inl rfl, h.1, h.2, rfl⟩
          · exact Or.inl hacc
          · exact Or.inr ⟨b, Or.inr hb, hprop⟩
        · rintro (hacc | ⟨b, rfl | hb, hprop⟩)
          · exact Or.inl (Or.inr hacc)
          · exact Or.inl (Or.inl hprop.2.2)
          · exact Or.inr ⟨b, hb, hprop⟩
      · simp only [pdfFoldStep, if_neg h, List.mem_cons]
        constructor
        · rintro (hacc | ⟨b, hb, hprop⟩)
          · exact Or.inl hacc
          · exact Or.inr ⟨b, Or.inr hb, hprop⟩
        · rintro (hacc | ⟨b, rfl | hb, hprop⟩)
          · exact Or.inl hacc
          · exact absurd ⟨hprop.1, hprop.2.1⟩ h
          · exact Or.inr ⟨b, hb, hprop⟩

/-- C8: a URL is in the set returned by `extract_pdf_links` exactly when it
is the resolution against the base URL of some (normalized) href of the
page matched by `PDF_LINK_PATTERN` — so non-matching hrefs are excluded —
and resolution passes an absolute href through unchanged. -/
theorem extract_pdf_links_spec (atags : List ATag) (base_url u h : String) :
    (u ∈ extract_pdf_links (Except.ok atags) base_url ↔
      ∃ a ∈ atags, normalizeHref a.href ≠ "" ∧
        PDF_LINK_PATTERN_search (normalizeHref a.href) = true ∧
        u = urljoin base_url (normalizeHref a.href)) ∧
    (isAbsoluteUrl h = true → urljoin base_url h = h) := by
  constructor
  · rw [show extract_pdf_links (Except.ok atags) base_url
        = atags.foldl (pdfFoldStep base_url) ∅ from rfl]
    rw [foldl_pdfFoldStep_mem]
    simp
  · intro habs
    simp [urljoin, habs]

theorem extract_pdf_links_spec_witness :
    (("http://h/a.pdf" : String) ∈
        extract_pdf_links (Except.ok [⟨Sum.inl " a.pdf "⟩]) "http://h/i.html" ↔
      ∃ a ∈ [(⟨Sum.inl " a.pdf "⟩ : ATag)], normalizeHref a.href ≠ "" ∧
        PDF_LINK_PATTERN_search (normalizeHref a.href) = true ∧
        "http://h/a.pdf" = urljoin "http://h/i.html" (normalizeHref a.href)) ∧
    (isAbsoluteUrl "https://q/b.pdf" = true →
      urljoin "http://h/i.html" "https://q/b.pdf" = "https://q/b.pdf") :=
  extract_pdf_links_spec [⟨Sum.inl " a.pdf "⟩] "http://h/i.html"
    "http://h/a.pdf" "https://q/b.pdf"

theorem fetch_html_aux_le (attempt : Nat → Option String) (retries : Nat)
    (fuel attempts : Nat) (hle : attempts ≤ retries) :
    (fetch_html_aux attempt retries attempts fuel).2 ≤ retries := by
  induction fuel generalizing attempts with
  | zero => simpa [fetch_html_aux] using hle
  | succ n ih =>
      rw [fetch_html_aux]
      by_cases hlt : attempts < retries
      · rw [if_pos hlt]
        cases attempt (attempts + 1) with
        | some html => simpa using hlt
        | none =>
            by_cases h2 : attempts + 1 < retries
            · rw [if_pos h2]
              exact ih (attempts + 1) (Nat.le_of_lt h2)
            · rw [if_neg h2]
              simpa using hlt
      · rw [if_neg hlt]
        simpa using hle

/-- C10: `fetch_html` treats `retries` as the total number of request
attempts: with `retries = 0` the loop guard fails immediately, no request
is issued and the result is `none`; with `retries = n` at most `n` requests
are issued (the second component counts the requests actually made). -/
theorem fetch_html_retries_spec (attempt : Nat → Option String) (retries : Nat) :
    fetch_html attempt 0 = (none, 0) ∧
    (fetch_html attempt retries).2 ≤ retries :=
  ⟨rfl, fetch_html_aux_le attempt retries retries 0 (Nat.zero_le retries)⟩

end MedFeeBot
